import Mathlib

/-
Shallow embedding of the navigation core of josephroque/campus-guide:
  src/src/reducers/header.js  (header state reducer)
  src/js/components/Tabs.js   (navigation stack, tab switching, search dispatch)
View-layer collaborators (Navigator, NavBar, LayoutAnimation, keyboard) are
external black boxes per the spec; only state transitions are embedded.
-/

namespace CampusGuide

/-- Runtime JavaScript values, as far as the embedded code needs them: the
header title can be a string or a translated-name object, action fields can be
absent (undefined) or null, and the reducer tests them for truthiness.
Numbers are embedded as integers (no fractional values occur in this code). -/
inductive JSVal where
  | undefined : JSVal
  | null : JSVal
  | bool : Bool → JSVal
  | num : Int → JSVal
  | str : String → JSVal
  | obj : String → String → JSVal
deriving DecidableEq

/-- JavaScript truthiness of a value: undefined, null, false, 0 and the empty
string are falsy; everything else embedded here is truthy. -/
def JSVal.toBool : JSVal → Bool
  | .undefined => false
  | .null => false
  | .bool b => b
  | .num n => decide (n ≠ 0)
  | .str s => decide (s ≠ "")
  | .obj _ _ => true

/-- JavaScript logical-or expression a || b: the left operand when it is
truthy, otherwise the right operand. -/
def jsOr (a b : JSVal) : JSVal := if a.toBool then a else b

/-- Header state from src/src/reducers/header.js (type State). -/
structure HeaderState where
  backNavigation : Nat
  title : JSVal
  shouldShowBack : JSVal
  shouldShowSearch : JSVal
deriving DecidableEq

/-- A dispatched action: a string type tag and the payload fields the header
reducer reads. A field an action object does not carry is JSVal.undefined. -/
structure Action where
  type : String
  title : JSVal
  shouldShowBack : JSVal
  shouldShowSearch : JSVal
deriving DecidableEq

/-- Default title from src/src/reducers/header.js. The CoreTranslations asset
is not among the sources, so the fallback string literals of the source are
used; no claim depends on the contents of this value, only on its identity. -/
def defaultTitle : JSVal := JSVal.obj "Campus Guide" "Guide de campus"

/-- Initial header state from src/src/reducers/header.js. -/
def initialState : HeaderState :=
  { backNavigation := 0
    title := defaultTitle
    shouldShowBack := JSVal.bool false
    shouldShowSearch := JSVal.bool false }

/-- The header reducer from src/src/reducers/header.js. The JavaScript default
parameter (state = initialState, applied when the argument is undefined) is
embedded as an Option argument; the switch on action.type is the if-chain. -/
def header (state : Option HeaderState) (action : Action) : HeaderState :=
  let s := state.getD initialState
  if action.type = "NAVIGATE_BACK" then
    { s with backNavigation := s.backNavigation + 1 }
  else if action.type = "SET_HEADER_TITLE" then
    { s with title := jsOr action.title initialState.title }
  else if action.type = "HEADER_SHOW_BACK" then
    { s with shouldShowBack := action.shouldShowBack }
  else if action.type = "HEADER_SHOW_SEARCH" then
    { s with shouldShowSearch := action.shouldShowSearch }
  else
    s

/-- The NAVIGATE_BACK action (it carries no payload fields). -/
def navigateBackAction : Action :=
  { type := "NAVIGATE_BACK"
    title := JSVal.undefined
    shouldShowBack := JSVal.undefined
    shouldShowSearch := JSVal.undefined }

/-- A SET_HEADER_TITLE action carrying a title value. -/
def setTitleAction (t : JSVal) : Action :=
  { type := "SET_HEADER_TITLE"
    title := t
    shouldShowBack := JSVal.undefined
    shouldShowSearch := JSVal.undefined }

/-- An action with an unrecognized type tag. -/
def unknownAction : Action :=
  { type := "UNKNOWN"
    title := JSVal.undefined
    shouldShowBack := JSVal.undefined
    shouldShowSearch := JSVal.undefined }

/-- The header state after N consecutive NAVIGATE_BACK dispatches starting
from the initial state. -/
def navBackN : Nat → HeaderState
  | 0 => initialState
  | n + 1 => header (some (navBackN n)) navigateBackAction

/-- Claim C4: for every header state S and every action whose type is none of
the four recognized kinds, the reducer returns S itself unchanged; the
reducer is a total function, so it never fails on any action shape. -/
theorem c4_unknown_action_identity (S : HeaderState) (act : Action)
    (h1 : act.type ≠ "NAVIGATE_BACK") (h2 : act.type ≠ "SET_HEADER_TITLE")
    (h3 : act.type ≠ "HEADER_SHOW_BACK") (h4 : act.type ≠ "HEADER_SHOW_SEARCH") :
    header (some S) act = S := by
  simp [header, h1, h2, h3, h4]

/-- Witness for C4 at the concrete action type UNKNOWN. -/
theorem c4_unknown_action_identity_witness :
    header (some initialState) unknownAction = initialState :=
  c4_unknown_action_identity initialState unknownAction
    (by decide) (by decide) (by decide) (by decide)

/-- Claim C5: N NAVIGATE_BACK dispatches from the initial state leave the
counter at N, and each single NAVIGATE_BACK dispatch increments the counter by
exactly one and leaves title, shouldShowBack and shouldShowSearch unchanged. -/
theorem c5_back_counter_monotone :
    (∀ N : Nat, (navBackN N).backNavigation = N) ∧
    (∀ (S : HeaderState) (act : Action), act.type = "NAVIGATE_BACK" →
      header (some S) act =
        { backNavigation := S.backNavigation + 1
          title := S.title
          shouldShowBack := S.shouldShowBack
          shouldShowSearch := S.shouldShowSearch }) := by
  constructor
  · intro N
    induction N with
    | zero => rfl
    | succ k ih => simp [navBackN, header, navigateBackAction, ih]
  · intro S act h
    simp [header, h]

/-- Witness for C5 at N = 3 and at the initial state. -/
theorem c5_back_counter_monotone_witness :
    (navBackN 3).backNavigation = 3 ∧
    header (some initialState) navigateBackAction =
      { backNavigation := initialState.backNavigation + 1
        title := initialState.title
        shouldShowBack := initialState.shouldShowBack
        shouldShowSearch := initialState.shouldShowSearch } :=
  ⟨c5_back_counter_monotone.1 3,
   c5_back_counter_monotone.2 initialState navigateBackAction rfl⟩

/-- Claim C6, counterexample: the empty-string title is present and non-null,
yet the reducer does not store it; it falls back to the default title, because
the source tests truthiness, not presence or null-ness. -/
theorem c6_counterexample :
    JSVal.str "" ≠ JSVal.null ∧ JSVal.str "" ≠ JSVal.undefined ∧
    (header (some initialState) (setTitleAction (JSVal.str ""))).title ≠ JSVal.str "" := by
  refine ⟨by decide, by decide, ?_⟩
  simp [header, setTitleAction, jsOr, JSVal.toBool, initialState, defaultTitle]

/-- Claim C6 as amended: a SET_HEADER_TITLE action sets the title to
action.title whenever that value is truthy, and resets the title to the
default app-name title whenever it is falsy, never failing. -/
theorem c6_set_title (S : HeaderState) (act : Action)
    (h : act.type = "SET_HEADER_TITLE") :
    header (some S) act =
      { backNavigation := S.backNavigation
        title := if act.title.toBool then act.title else defaultTitle
        shouldShowBack := S.shouldShowBack
        shouldShowSearch := S.shouldShowSearch } := by
  simp only [header, Option.getD, h]
  by_cases ht : act.title.toBool <;>
    simp [jsOr, ht, initialState]

/-- Witness for C6 at a concrete truthy title. -/
theorem c6_set_title_witness :
    header (some initialState) (setTitleAction (JSVal.str "Find")) =
      { backNavigation := initialState.backNavigation
        title := if (JSVal.str "Find").toBool then JSVal.str "Find" else defaultTitle
        shouldShowBack := initialState.shouldShowBack
        shouldShowSearch := initialState.shouldShowSearch } :=
  c6_set_title initialState (setTitleAction (JSVal.str "Find")) rfl

/-- Claim C9: the title fallback triggers on every falsy title value, not only
missing or null ones; whenever the supplied title is falsy the stored title is
the default app-name title. -/
theorem c9_falsy_title_fallback (S : HeaderState) (act : Action)
    (h : act.type = "SET_HEADER_TITLE") (hf : act.title.toBool = false) :
    (header (some S) act).title = defaultTitle := by
  simp [header, h, jsOr, hf, initialState]

/-- Witness for C9 at the empty-string title, which is present and non-null
yet falsy. -/
theorem c9_falsy_title_fallback_witness :
    JSVal.str "" ≠ JSVal.null ∧ JSVal.str "" ≠ JSVal.undefined ∧
    (header (some initialState) (setTitleAction (JSVal.str ""))).title = defaultTitle :=
  ⟨by decide, by decide,
   c9_falsy_title_fallback initialState (setTitleAction (JSVal.str "")) rfl (by decide)⟩

/-- Claim C10: calling the reducer with no prior state behaves exactly like
calling it on the fixed initial state, whose fields are counter 0, default
app-name title, and both visibility flags false. -/
theorem c10_default_state (act : Action) :
    header none act = header (some initialState) act ∧
    initialState =
      { backNavigation := 0
        title := defaultTitle
        shouldShowBack := JSVal.bool false
        shouldShowSearch := JSVal.bool false } :=
  ⟨rfl, rfl⟩

/-- A screen identifier from Tabs.js: the screenStack holds values of the
Flow type number | string. -/
inductive ScreenId where
  | num : Int → ScreenId
  | str : String → ScreenId
deriving DecidableEq

/-- The ScreenUtils.isRootScreen collaborator compares a supplied screen id
against the known set of per-tab root screen ids; it is an external black box,
embedded as a boolean predicate parameter. Reading an index past the end of a
JavaScript array yields undefined, which matches no known root id, hence the
none case is false. -/
def jsIsRoot (isRoot : ScreenId → Bool) : Option ScreenId → Bool
  | some s => isRoot s
  | none => false

/-- The getCurrentScreen method from Tabs.js: the last element of the screen
stack, or the sentinel 0 when the stack is empty. -/
def getCurrentScreen (stack : List ScreenId) : ScreenId :=
  match stack.getLast? with
  | some s => s
  | none => ScreenId.num 0

/-- The navigateBack method from Tabs.js, restricted to the screen stack: the
Navigator.pop and nav-bar calls are view-layer effects. Returns whether the
app navigated backwards, and the resulting stack. -/
def navigateBack (isRoot : ScreenId → Bool) (stack : List ScreenId) :
    Bool × List ScreenId :=
  if jsIsRoot isRoot stack.getLast? then (false, stack)
  else (true, stack.dropLast)

/-- n successive navigateBack calls applied to a stack. -/
def navigateBackSeq (isRoot : ScreenId → Bool) : Nat → List ScreenId → List ScreenId
  | 0, stack => stack
  | n + 1, stack => navigateBackSeq isRoot n (navigateBack isRoot stack).2

/-- The navigateForward method from Tabs.js, restricted to the screen stack:
a push is skipped when the current screen already equals the requested id;
the data payload is only ever forwarded to the view layer, never consulted by
the guard and never stored on the stack. -/
def navigateForward (stack : List ScreenId) (screenId : ScreenId) (data : JSVal) :
    List ScreenId :=
  if getCurrentScreen stack = screenId then stack
  else stack ++ [screenId]

/-- Component state of TabsCommon relevant to the embedded transitions. -/
structure TabsState where
  screenStack : List ScreenId
  currentTab : ScreenId
  ignoreNextSearch : Bool
deriving DecidableEq

/-- The changeTabs method from Tabs.js, restricted to state: it sets the
one-shot search suppression flag, replaces the whole stack with the root
screen of the selected tab, and records the current tab. Listener resumption,
search-field clearing, Navigator.resetTo and the animation are view-layer
effects. -/
def changeTabs (st : TabsState) (tab : ScreenId) : TabsState :=
  { screenStack := [tab]
    currentTab := tab
    ignoreNextSearch := true }

/-- A HEADER_SHOW_BACK action carrying a boolean. -/
def showBackAction (b : Bool) : Action :=
  { type := "HEADER_SHOW_BACK"
    title := JSVal.undefined
    shouldShowBack := JSVal.bool b
    shouldShowSearch := JSVal.undefined }

/-- Modelled from the spec: the back event wiring between the navigation
stack and the header reducer. Tabs.js updates the nav bar component directly
and the repository code that dispatches NAVIGATE_BACK to the header reducer
of src/src/reducers/header.js is not among the sources, so this composite
follows the spec sentence: a back event pops the stack, and if the stack is
back at its root, requests the reducer hide the back button, and increments
the back-navigation counter of the reducer. The stack logic is the
navigateBack method of Tabs.js. -/
def navigateBackEvent (isRoot : ScreenId → Bool) (stack : List ScreenId)
    (h : HeaderState) : Bool × List ScreenId × HeaderState :=
  if jsIsRoot isRoot stack.getLast? then (false, stack, h)
  else
    let stack2 := stack.dropLast
    let h2 := if jsIsRoot isRoot stack2.getLast? then
        header (some h) (showBackAction false)
      else h
    (true, stack2, header (some h2) navigateBackAction)

/-- A search listener, modelled from the spec: a registered handler with a
priority tier, identified here by a numeric id. -/
structure SearchListener where
  id : Nat
  priority : Nat
deriving DecidableEq

/-- Modelled from the spec: the SearchManager registry interface, whose
internals are not among the sources. It exposes the number of registered
listeners, the listeners of the highest-priority tier, and an optional
default listener. -/
structure SearchManager where
  listeners : List SearchListener
  defaultListener : Option Nat
deriving DecidableEq

/-- Modelled from the spec: the highest priority tier among the registered
listeners. -/
def maxPriority (sm : SearchManager) : Nat :=
  (sm.listeners.map SearchListener.priority).foldr max 0

/-- Modelled from the spec: getHighestPrioritySearchListeners returns the
registered listeners whose tier is the highest present. -/
def getHighestPrioritySearchListeners (sm : SearchManager) : List SearchListener :=
  sm.listeners.filter (fun l => decide (l.priority = maxPriority sm))

/-- The onSearch method from Tabs.js: if the one-shot suppression flag is
set, clear it and deliver nothing; else if there are registered listeners and
the always-search-all preference is off, deliver the query to each listener
of the highest-priority tier; else deliver to the default listener when one
exists. Returns the new suppression flag and the ordered list of deliveries,
each a listener id paired with the query it receives. -/
def onSearch (sm : SearchManager) (alwaysSearchAll : Bool) (ignoreNext : Bool)
    (query : Option String) : Bool × List (Nat × Option String) :=
  if ignoreNext then (false, [])
  else if 0 < sm.listeners.length ∧ alwaysSearchAll = false then
    (ignoreNext, (getHighestPrioritySearchListeners sm).map (fun l => (l.id, query)))
  else
    match sm.defaultListener with
    | some d => (ignoreNext, [(d, query)])
    | none => (ignoreNext, [])

/-- A concrete root predicate for witnesses: screen 1 is the only root. -/
def exIsRoot : ScreenId → Bool := fun s => decide (s = ScreenId.num 1)

/-- A back call at a root screen is rejected and leaves the stack alone. -/
theorem navigateBack_at_root (isRoot : ScreenId → Bool) (stack : List ScreenId)
    (h : jsIsRoot isRoot stack.getLast? = true) :
    navigateBack isRoot stack = (false, stack) := by
  simp [navigateBack, h]

/-- Any number of back calls from a single root screen is the identity. -/
theorem navigateBackSeq_fixed (isRoot : ScreenId → Bool) (r : ScreenId)
    (hr : isRoot r = true) : ∀ n, navigateBackSeq isRoot n [r] = [r] := by
  intro n
  induction n with
  | zero => rfl
  | succ k ih =>
      have hb : navigateBack isRoot [r] = (false, [r]) := by
        simp [navigateBack, jsIsRoot, hr]
      simp [navigateBackSeq, hb, ih]

/-- Claim C1: a back event that succeeds (the current screen is not a root
screen) pops the navigation stack and, as part of handling that event,
increments the back-navigation counter of the header reducer. -/
theorem c1_back_event_pops_and_counts (isRoot : ScreenId → Bool)
    (stack : List ScreenId) (h : HeaderState)
    (hnr : jsIsRoot isRoot stack.getLast? = false) :
    (navigateBackEvent isRoot stack h).1 = true ∧
    (navigateBackEvent isRoot stack h).2.1 = stack.dropLast ∧
    (navigateBackEvent isRoot stack h).2.2.backNavigation = h.backNavigation + 1 := by
  unfold navigateBackEvent
  rw [hnr]
  refine ⟨by simp, by simp, ?_⟩
  by_cases h2 : jsIsRoot isRoot stack.dropLast.getLast? = true
  · simp [h2, header, navigateBackAction, showBackAction]
  · simp [h2, header, navigateBackAction]

/-- Witness for C1: back from the two-deep stack with non-root top. -/
theorem c1_back_event_pops_and_counts_witness :
    (navigateBackEvent exIsRoot [ScreenId.num 1, ScreenId.num 2] initialState).1 = true ∧
    (navigateBackEvent exIsRoot [ScreenId.num 1, ScreenId.num 2] initialState).2.1 =
      [ScreenId.num 1] ∧
    (navigateBackEvent exIsRoot [ScreenId.num 1, ScreenId.num 2] initialState).2.2.backNavigation =
      initialState.backNavigation + 1 := by
  have h := c1_back_event_pops_and_counts exIsRoot [ScreenId.num 1, ScreenId.num 2]
    initialState (by decide)
  exact ⟨h.1, h.2.1, h.2.2⟩

/-- Claim C2: from a freshly reset stack holding a single root screen, any
sequence of navigateBack calls keeps the stack length at least 1, and a
navigateBack call whose current screen is a root screen returns false and
leaves the stack unchanged. -/
theorem c2_stack_floor (isRoot : ScreenId → Bool) (r : ScreenId)
    (hr : isRoot r = true) :
    (∀ n, 1 ≤ (navigateBackSeq isRoot n [r]).length) ∧
    (∀ stack : List ScreenId, jsIsRoot isRoot stack.getLast? = true →
      navigateBack isRoot stack = (false, stack)) := by
  constructor
  · intro n
    rw [navigateBackSeq_fixed isRoot r hr n]
    simp
  · intro stack h
    exact navigateBack_at_root isRoot stack h

/-- Witness for C2 with root screen 1 and three back calls. -/
theorem c2_stack_floor_witness :
    1 ≤ (navigateBackSeq exIsRoot 3 [ScreenId.num 1]).length ∧
    navigateBack exIsRoot [ScreenId.num 1] = (false, [ScreenId.num 1]) := by
  have h := c2_stack_floor exIsRoot (ScreenId.num 1) (by decide)
  exact ⟨h.1 3, h.2 [ScreenId.num 1] (by decide)⟩

/-- Claim C3, counterexample: when the current screen already equals X, two
navigateForward calls in a row gain zero stack entries, not exactly one. -/
theorem c3_counterexample :
    (navigateForward (navigateForward [ScreenId.num 1] (ScreenId.num 1) (JSVal.str "a"))
        (ScreenId.num 1) (JSVal.str "b")).length ≠
      ([ScreenId.num 1] : List ScreenId).length + 1 := by
  decide

/-- Claim C3 as amended: navigateForward with the current screen equal to the
requested id is a no-op for any payload; when the current screen differs from
X, two calls in a row gain exactly one entry, the second call being rejected
by the id-only guard even when its payload differs. -/
theorem c3_duplicate_push_guard :
    (∀ (stack : List ScreenId) (X : ScreenId) (d : JSVal),
      getCurrentScreen stack = X → navigateForward stack X d = stack) ∧
    (∀ (stack : List ScreenId) (X : ScreenId) (d1 d2 : JSVal),
      getCurrentScreen stack ≠ X →
        navigateForward (navigateForward stack X d1) X d2 = stack ++ [X] ∧
        (navigateForward (navigateForward stack X d1) X d2).length = stack.length + 1) := by
  constructor
  · intro stack X d h
    simp [navigateForward, h]
  · intro stack X d1 d2 h
    have h1 : navigateForward stack X d1 = stack ++ [X] := by
      simp [navigateForward, h]
    have h2 : getCurrentScreen (stack ++ [X]) = X := by
      simp [getCurrentScreen, List.getLast?_concat]
    constructor
    · rw [h1]
      simp [navigateForward, h2]
    · rw [h1]
      simp [navigateForward, h2]

/-- Witness for C3: a rejected duplicate push and a pair of pushes gaining
exactly one entry under differing payloads. -/
theorem c3_duplicate_push_guard_witness :
    navigateForward [ScreenId.num 1] (ScreenId.num 1) (JSVal.str "a") = [ScreenId.num 1] ∧
    navigateForward (navigateForward [ScreenId.num 1] (ScreenId.num 2) (JSVal.str "a"))
        (ScreenId.num 2) (JSVal.str "b") = [ScreenId.num 1] ++ [ScreenId.num 2] ∧
    (navigateForward (navigateForward [ScreenId.num 1] (ScreenId.num 2) (JSVal.str "a"))
        (ScreenId.num 2) (JSVal.str "b")).length =
      ([ScreenId.num 1] : List ScreenId).length + 1 := by
  have ha := c3_duplicate_push_guard.1 [ScreenId.num 1] (ScreenId.num 1)
    (JSVal.str "a") (by decide)
  have hb := c3_duplicate_push_guard.2 [ScreenId.num 1] (ScreenId.num 2)
    (JSVal.str "a") (JSVal.str "b") (by decide)
  exact ⟨ha, hb.1, hb.2⟩

/-- Claim C7: with the suppression flag clear, a dispatch delivers the query
to exactly the highest-priority tier when listeners are registered and the
always-search-all preference is off; otherwise it delivers the query exactly
once to the default listener when one exists; otherwise it delivers
nothing. -/
theorem c7_search_dispatch (sm : SearchManager) (asa : Bool) (q : Option String) :
    (sm.listeners ≠ [] → asa = false →
      (onSearch sm asa false q).2 =
        (getHighestPrioritySearchListeners sm).map (fun l => (l.id, q))) ∧
    (∀ d : Nat, (sm.listeners = [] ∨ asa = true) → sm.defaultListener = some d →
      (onSearch sm asa false q).2 = [(d, q)]) ∧
    ((sm.listeners = [] ∨ asa = true) → sm.defaultListener = none →
      (onSearch sm asa false q).2 = []) := by
  refine ⟨?_, ?_, ?_⟩
  · intro hne hasa
    have hlen : 0 < sm.listeners.length := List.length_pos.mpr hne
    simp [onSearch, hlen, hasa]
  · intro d hor hd
    have hcond : ¬ (0 < sm.listeners.length ∧ asa = false) := by
      rcases hor with h | h
      · simp [h]
      · simp [h]
    simp [onSearch, hcond, hd]
  · intro hor hd
    have hcond : ¬ (0 < sm.listeners.length ∧ asa = false) := by
      rcases hor with h | h
      · simp [h]
      · simp [h]
    simp [onSearch, hcond, hd]

/-- Witness for C7: the spec scenario where the registry is empty and a
default listener receives the query exactly once. -/
theorem c7_search_dispatch_witness :
    (onSearch { listeners := [], defaultListener := some 7 } false false (some "cafe")).2 =
      [(7, some "cafe")] :=
  (c7_search_dispatch { listeners := [], defaultListener := some 7 } false
    (some "cafe")).2.1 7 (Or.inl rfl) rfl

/-- Claim C8: a tab switch sets the one-shot suppression flag; a dispatch
with the flag set delivers nothing and clears the flag, so the dispatch after
it behaves like a normal dispatch with the flag clear. -/
theorem c8_one_shot_suppression (sm : SearchManager) (asa : Bool)
    (q1 q2 : Option String) (st : TabsState) (tab : ScreenId) :
    (changeTabs st tab).ignoreNextSearch = true ∧
    onSearch sm asa true q1 = (false, []) ∧
    onSearch sm asa (onSearch sm asa true q1).1 q2 = onSearch sm asa false q2 :=
  ⟨rfl, rfl, rfl⟩

end CampusGuide
